import Mathlib

/-!
Verification of the camera, model-loading, texture-loading and window-resize
logic of a small wgpu rendering demo (src/camera.rs, src/model.rs,
src/texture.rs, src/main.rs).

The f32/f64 arithmetic of the source is embedded as exact field arithmetic:
`ℚ` wherever concrete evaluation is wanted, `ℝ` where trigonometric facts are
needed.  The transcendental functions the source calls (`sin`, `cos`, `sqrt`,
`tan`, and the degree-to-radian conversion of `cgmath::Deg`) are passed to the
embedded functions as explicit function arguments, so that every definition is
executable and can be instantiated with `Real.sin` etc. in theorems.
-/

/-- A 3-component vector, embedding cgmath `Vector3<f32>` / `Point3<f32>`. -/
structure Vec3 (K : Type) where
  x : K
  y : K
  z : K
  deriving DecidableEq

/-- A 4-component vector: one column of a cgmath `Matrix4<f32>`. -/
structure Vec4 (K : Type) where
  x : K
  y : K
  z : K
  w : K
  deriving DecidableEq

/-- A 4×4 matrix stored as its four columns; cgmath `Matrix4::new` lists the
sixteen entries column by column. -/
structure Mat4 (K : Type) where
  c0 : Vec4 K
  c1 : Vec4 K
  c2 : Vec4 K
  c3 : Vec4 K
  deriving DecidableEq

/-- Componentwise vector addition (cgmath `Vector3 + Vector3`). -/
def vadd3 [Field K] (a b : Vec3 K) : Vec3 K :=
  ⟨a.x + b.x, a.y + b.y, a.z + b.z⟩

/-- Vector–scalar product `v * k` (cgmath `Vector3<f32> * f32`). -/
def vmul3 [Field K] (v : Vec3 K) (k : K) : Vec3 K :=
  ⟨v.x * k, v.y * k, v.z * k⟩

/-- Componentwise vector subtraction (cgmath `Point3 - Point3`). -/
def vsub3 [Field K] (a b : Vec3 K) : Vec3 K :=
  ⟨a.x - b.x, a.y - b.y, a.z - b.z⟩

/-- Dot product (cgmath `Vector3::dot`). -/
def dot3 [Field K] (a b : Vec3 K) : K :=
  a.x * b.x + a.y * b.y + a.z * b.z

/-- Cross product (cgmath `Vector3::cross`). -/
def cross3 [Field K] (a b : Vec3 K) : Vec3 K :=
  ⟨a.y * b.z - a.z * b.y, a.z * b.x - a.x * b.z, a.x * b.y - a.y * b.x⟩

/-- cgmath `InnerSpace::normalize`: `v * (1 / magnitude v)`, with the square
root supplied as a function argument `sqrtK`. -/
def normalize3 [Field K] (sqrtK : K → K) (v : Vec3 K) : Vec3 K :=
  vmul3 v (1 / sqrtK (dot3 v v))

/-- Componentwise addition of 4-vectors. -/
def vadd4 [Field K] (a b : Vec4 K) : Vec4 K :=
  ⟨a.x + b.x, a.y + b.y, a.z + b.z, a.w + b.w⟩

/-- Scalar–vector product on 4-vectors. -/
def vscale4 [Field K] (k : K) (v : Vec4 K) : Vec4 K :=
  ⟨k * v.x, k * v.y, k * v.z, k * v.w⟩

/-- Matrix–vector product: `m * v = v.x • c0 + v.y • c1 + v.z • c2 + v.w • c3`
(cgmath multiplies a column-major matrix by a column vector). -/
def mulVec4 [Field K] (m : Mat4 K) (v : Vec4 K) : Vec4 K :=
  vadd4 (vadd4 (vscale4 v.x m.c0) (vscale4 v.y m.c1))
    (vadd4 (vscale4 v.z m.c2) (vscale4 v.w m.c3))

/-- Matrix–matrix product, column by column. -/
def mulMat4 [Field K] (m n : Mat4 K) : Mat4 K :=
  ⟨mulVec4 m n.c0, mulVec4 m n.c1, mulVec4 m n.c2, mulVec4 m n.c3⟩

/-- camera.rs lines 175-181: the fixed coordinate-system correction matrix
`OPENGL_TO_WGPU_MATRIX = Matrix4::new(1,0,0,0, 0,1,0,0, 0,0,0.5,0, 0,0,0.5,1)`
(column-major: its third column is `(0,0,0.5,0)` and its fourth
`(0,0,0.5,1)`). -/
def OPENGL_TO_WGPU_MATRIX [Field K] : Mat4 K :=
  ⟨⟨1, 0, 0, 0⟩, ⟨0, 1, 0, 0⟩, ⟨0, 0, 1 / 2, 0⟩, ⟨0, 0, 1 / 2, 1⟩⟩

/-- cgmath `Matrix4::look_at_rh(eye, center, up)` (via `look_to_rh`):
`f = normalize(center - eye)`, `s = normalize(f × up)`, `u = s × f`, assembled
column-major with the translation row `(-eye·s, -eye·u, eye·f, 1)`. -/
def look_at_rh [Field K] (sqrtK : K → K) (eye center up : Vec3 K) : Mat4 K :=
  let f := normalize3 sqrtK (vsub3 center eye)
  let s := normalize3 sqrtK (cross3 f up)
  let u := cross3 s f
  ⟨⟨s.x, u.x, -f.x, 0⟩,
   ⟨s.y, u.y, -f.y, 0⟩,
   ⟨s.z, u.z, -f.z, 0⟩,
   ⟨-(dot3 eye s), -(dot3 eye u), dot3 eye f, 1⟩⟩

/-- cgmath `perspective(fovy, aspect, near, far)` lowered to `Matrix4`:
`f = cot(fovy / 2)`, with the tangent supplied as the function argument
`tanK`. -/
def perspective [Field K] (tanK : K → K) (fovy aspect near far : K) : Mat4 K :=
  let f := 1 / tanK (fovy / 2)
  ⟨⟨f / aspect, 0, 0, 0⟩,
   ⟨0, f, 0, 0⟩,
   ⟨0, 0, (far + near) / (near - far), -1⟩,
   ⟨0, 0, 2 * far * near / (near - far), 0⟩⟩

/-- camera.rs lines 183-192: the eye/target/up camera variant with its
projection parameters. -/
structure Camera (K : Type) where
  eye : Vec3 K
  target : Vec3 K
  up : Vec3 K
  aspect : K
  fovy : K
  znear : K
  zfar : K
  deriving DecidableEq

/-- camera.rs lines 195-203: `view = look_at_rh(eye, target, up)`,
`proj = perspective(Deg(fovy), aspect, znear, zfar)`, returning
`OPENGL_TO_WGPU_MATRIX * proj * view` (Rust `*` is left-associative).  The
`Deg` → `Rad` conversion of cgmath is the function argument `d2r`. -/
def Camera.build_view_projection_matrix [Field K] (sqrtK tanK d2r : K → K)
    (c : Camera K) : Mat4 K :=
  let view := look_at_rh sqrtK c.eye c.target c.up
  let proj := perspective tanK (d2r c.fovy) c.aspect c.znear c.zfar
  mulMat4 (mulMat4 OPENGL_TO_WGPU_MATRIX proj) view

/-- The key codes matched by the controller's key handlers (camera.rs lines
63-109); `Other` stands for every key caught by the catch-all `_` arm. -/
inductive VirtualKeyCode where
  | W
  | Up
  | S
  | Down
  | A
  | Left
  | D
  | Right
  | Space
  | LShift
  | Other
  deriving DecidableEq

/-- camera.rs lines 12-36 plus the extra state its (half-finished) impl block
at lines 39-167 reads: the declared struct holds the six movement flags, four
rotation flags, `move_speed`, `rotate_speed`, `scroll` and `sensitivity`; the
impl additionally references `speed`, `rotate_horizontal` and
`rotate_vertical`, which the embedding therefore carries as well.  The
`Cell<bool>` wrappers are interior-mutability plumbing with no observable
semantics of their own. -/
structure CameraController (K : Type) where
  move_left : Bool
  move_right : Bool
  move_forward : Bool
  move_backward : Bool
  move_up : Bool
  move_down : Bool
  move_speed : K
  rotate_left : Bool
  rotate_right : Bool
  rotate_up : Bool
  rotate_down : Bool
  rotate_speed : K
  scroll : K
  sensitivity : K
  speed : K
  rotate_horizontal : K
  rotate_vertical : K
  deriving DecidableEq

/-- camera.rs lines 63-85, `CameraController::process_keydown` (the unused
`state: ElementState` parameter is dropped): every recognized key sets its
movement flag to `true`; unrecognized keys fall to the `_ => ()` arm. -/
def process_keydown (c : CameraController K) (key : VirtualKeyCode) :
    CameraController K :=
  match key with
  | .W | .Up => { c with move_forward := true }
  | .S | .Down => { c with move_backward := true }
  | .A | .Left => { c with move_left := true }
  | .D | .Right => { c with move_right := true }
  | .Space => { c with move_up := true }
  | .LShift => { c with move_down := true }
  | .Other => c

/-- camera.rs lines 87-109, `CameraController::process_keyup`, embedded
exactly as written: the arms for `W | Up`, `S | Down` and `A | Left` set their
flags to `false`, but the arms for `D | Right` (line 99), `Space` (line 102)
and `LShift` (line 105) set their flags to `true`. -/
def process_keyup (c : CameraController K) (key : VirtualKeyCode) :
    CameraController K :=
  match key with
  | .W | .Up => { c with move_forward := false }
  | .S | .Down => { c with move_backward := false }
  | .A | .Left => { c with move_left := false }
  | .D | .Right => { c with move_right := true }
  | .Space => { c with move_up := true }
  | .LShift => { c with move_down := true }
  | .Other => c

/-- camera.rs lines 111-114, `CameraController::process_mouse`: the incoming
deltas are assigned (`=`) to `rotate_horizontal` / `rotate_vertical`; the
f64 → f32 cast is the identity in the exact embedding. -/
def process_mouse (c : CameraController K) (mouse_dx mouse_dy : K) :
    CameraController K :=
  { c with rotate_horizontal := mouse_dx, rotate_vertical := mouse_dy }

/-- camera.rs `update_camera` takes `camera: &mut Camera` of the
position/yaw/pitch variant (distinct from the eye/target `Camera` struct
declared at lines 183-192); this is that variant. -/
structure CameraFly (K : Type) where
  position : Vec3 K
  yaw : K
  pitch : K
  deriving DecidableEq

/-- The numeric value of a movement flag as `update_camera` consumes it
(`self.move_forward - self.move_backward` treats a held flag as 1 and a
released flag as 0). -/
def amount [Field K] (b : Bool) : K :=
  cond b 1 0

/-- camera.rs line 142: `scrollward`, the normalized view direction
`normalize(pitch_cos * yaw_cos, pitch_sin, pitch_cos * yaw_sin)`. -/
def scrollwardDir [Field K] (sinK cosK sqrtK : K → K) (yaw pitch : K) :
    Vec3 K :=
  normalize3 sqrtK ⟨cosK pitch * cosK yaw, sinK pitch, cosK pitch * sinK yaw⟩

/-- camera.rs lines 127-166, `CameraController::update_camera`, line by line:
forward/right displacement from the movement flags, scroll displacement along
`scrollward` followed by zeroing `scroll`, the direct `y` update for up/down,
the yaw/pitch increments from `rotate_horizontal` / `rotate_vertical` scaled
by `sensitivity * dt`, the unconditional re-zeroing of both mouse deltas, and
finally the pitch clamp to `[-safe, safe]`.  The constant `SAFE_FRAC_PI_2`
the clamp compares against is not defined anywhere in the source, so it is the
parameter `safe` here; `dt.as_secs_f32()` is the identity on the exact time
value.  Returns the updated controller and camera. -/
def update_camera [LinearOrderedField K] (sinK cosK sqrtK : K → K) (safe : K)
    (c : CameraController K) (cam : CameraFly K) (dt : K) :
    CameraController K × CameraFly K :=
  let yaw_sin := sinK cam.yaw
  let yaw_cos := cosK cam.yaw
  let forward := normalize3 sqrtK ⟨yaw_cos, 0, yaw_sin⟩
  let right := normalize3 sqrtK ⟨-yaw_sin, 0, yaw_cos⟩
  let p1 := vadd3 cam.position
    (vmul3 forward ((amount c.move_forward - amount c.move_backward) * c.speed * dt))
  let p2 := vadd3 p1
    (vmul3 right ((amount c.move_right - amount c.move_left) * c.speed * dt))
  let p3 := vadd3 p2
    (vmul3 (scrollwardDir sinK cosK sqrtK cam.yaw cam.pitch)
      (c.scroll * c.speed * c.sensitivity * dt))
  let p4 : Vec3 K :=
    ⟨p3.x, p3.y + (amount c.move_up - amount c.move_down) * c.speed * dt, p3.z⟩
  let yaw2 := cam.yaw + c.rotate_horizontal * c.sensitivity * dt
  let pitch2 := cam.pitch + -c.rotate_vertical * c.sensitivity * dt
  let pitch3 := if pitch2 < -safe then -safe else if pitch2 > safe then safe else pitch2
  ({ c with scroll := 0, rotate_horizontal := 0, rotate_vertical := 0 },
   ⟨p4, yaw2, pitch3⟩)

/-- camera.rs lines 230-236: the projection split from the camera. -/
structure Projection (K : Type) where
  aspect : K
  fovy : K
  znear : K
  zfar : K
  deriving DecidableEq

/-- camera.rs lines 239-252, `Projection::new`: `aspect` is
`width as f32 / height as f32` on the raw `u32` arguments. -/
def Projection.new [Field K] (width height : ℕ) (fovy znear zfar : K) :
    Projection K :=
  ⟨(width : K) / (height : K), fovy, znear, zfar⟩

/-- camera.rs lines 254-256, `Projection::resize`: overwrites `aspect` with
`width as f32 / height as f32` and touches nothing else. -/
def Projection.resize [Field K] (p : Projection K) (width height : ℕ) :
    Projection K :=
  { p with aspect := (width : K) / (height : K) }

/-- camera.rs lines 258-260, `Projection::calc_matrix`. -/
def Projection.calc_matrix [Field K] (tanK : K → K) (p : Projection K) :
    Mat4 K :=
  mulMat4 OPENGL_TO_WGPU_MATRIX (perspective tanK p.fovy p.aspect p.znear p.zfar)

/-- vertex.rs lines 8-12: the model vertex, with each f32 array embedded as a
list of exact values. -/
structure MVertex where
  position : List ℚ
  uv : List ℚ
  norm : List ℚ
  deriving DecidableEq

/-- The per-mesh data `tobj::load_obj` hands to `Model::load`: flat position,
texcoord and normal arrays, the index list, and the optional material id. -/
structure ObjMesh where
  positions : List ℚ
  texcoords : List ℚ
  normals : List ℚ
  indices : List ℕ
  material_id : Option ℕ
  deriving DecidableEq

/-- One parsed OBJ model as produced by `tobj`. -/
structure ObjModel where
  name : String
  mesh : ObjMesh
  deriving DecidableEq

/-- model.rs lines 77-95: the vertex-construction loop of `Model::load`.  For
`i in 0 .. positions.len() / 3` it builds an `MVertex` whose position and uv
are read from the flat arrays and whose `norm` is the literal `[0.0, 0.0,
0.0]` — the three reads of `m.mesh.normals` are commented out (lines 87, 89,
91) and replaced by `0.0`.  Rust's panicking index is embedded as `List.getD`
with default 0; the position reads are in bounds by construction of the loop
range. -/
def mkVertices (m : ObjMesh) : List MVertex :=
  (List.range (m.positions.length / 3)).map fun i =>
    { position := [m.positions.getD (i * 3) 0, m.positions.getD (i * 3 + 1) 0,
        m.positions.getD (i * 3 + 2) 0],
      uv := [m.texcoords.getD (i * 2) 0, m.texcoords.getD (i * 2 + 1) 0],
      norm := [0, 0, 0] }

/-- model.rs lines 20-26: the mesh record; the GPU vertex/index buffers are
embedded as the lists whose bytes `create_buffer_init` copies into them. -/
structure Mesh where
  name : String
  vertices : List MVertex
  indices : List ℕ
  num_elements : ℕ
  material : ℕ
  deriving DecidableEq

/-- model.rs lines 75-121: the mesh loop of `Model::load` on the parsed OBJ
data, producing one `Mesh` per model with `num_elements = indices.len()` and
`material = material_id.unwrap_or(0)`.  The material loop and the GPU buffer
and bind-group creation are opaque device calls that produce no data the
claims touch. -/
def Model.load (obj_models : List ObjModel) : List Mesh :=
  obj_models.map fun m =>
    { name := m.name,
      vertices := mkVertices m.mesh,
      indices := m.mesh.indices,
      num_elements := m.mesh.indices.length,
      material := m.mesh.material_id.getD 0 }

/-- The decoded images of the `image` crate that matter to
`Texture::from_image`: `as_rgba8()` is `Some` exactly on the `ImageRgba8`
variant.  Each variant carries its dimensions and raw bytes; the crate has
further non-RGBA8 variants, which behave like the non-RGBA8 ones here. -/
inductive DynamicImage where
  | ImageLuma8 (w h : ℕ) (data : List ℕ)
  | ImageLumaA8 (w h : ℕ) (data : List ℕ)
  | ImageRgb8 (w h : ℕ) (data : List ℕ)
  | ImageRgba8 (w h : ℕ) (data : List ℕ)
  deriving DecidableEq

/-- `DynamicImage::as_rgba8`: a reference to the underlying buffer only when
the image is stored as 8-bit RGBA, `None` otherwise. -/
def DynamicImage.as_rgba8 : DynamicImage → Option (List ℕ)
  | .ImageRgba8 _ _ data => some data
  | _ => none

/-- `GenericImageView::dimensions`. -/
def DynamicImage.dimensions : DynamicImage → ℕ × ℕ
  | .ImageLuma8 w h _ => (w, h)
  | .ImageLumaA8 w h _ => (w, h)
  | .ImageRgb8 w h _ => (w, h)
  | .ImageRgba8 w h _ => (w, h)

/-- The three ways a Rust function returning `Result` can come back to its
caller: `Ok`, `Err`, or a panic that unwinds past the `Result` entirely. -/
inductive RustOutcome (ε α : Type) where
  | ok : α → RustOutcome ε α
  | err : ε → RustOutcome ε α
  | panicked : RustOutcome ε α
  deriving DecidableEq

/-- texture.rs lines 27-31: the texture record, embedded as the data derived
from the image that `from_image` uploads (`dimensions` into the extent,
the RGBA bytes into `write_texture`); view/sampler are opaque GPU handles. -/
structure Texture where
  width : ℕ
  height : ℕ
  data : List ℕ
  deriving DecidableEq

/-- texture.rs lines 58-114, `Texture::from_image`: line 64 is
`let rgba = img.as_rgba8().unwrap();` — when `as_rgba8` is `None` the unwrap
panics; otherwise the function continues infallibly to `Ok`. -/
def Texture.from_image (img : DynamicImage) : RustOutcome String Texture :=
  match img.as_rgba8 with
  | none => RustOutcome.panicked
  | some rgba =>
      RustOutcome.ok ⟨img.dimensions.1, img.dimensions.2, rgba⟩

/-- texture.rs lines 47-56, `Texture::from_bytes`:
`image::load_from_memory(bytes)?` propagates decode errors via `?`, then the
result is handed to `from_image`.  The decoder is the function argument
`decode`. -/
def Texture.from_bytes (decode : List ℕ → Except String DynamicImage)
    (bytes : List ℕ) : RustOutcome String Texture :=
  match decode bytes with
  | .error e => RustOutcome.err e
  | .ok img => Texture.from_image img

/-- texture.rs lines 34-45, `Texture::load`: `image::open(path)?` propagates
open/decode errors via `?`, then hands the image to `from_image`.  The opener
is the function argument `openImage`. -/
def Texture.load (openImage : String → Except String DynamicImage)
    (path : String) : RustOutcome String Texture :=
  match openImage path with
  | .error e => RustOutcome.err e
  | .ok img => Texture.from_image img

/-- main.rs: the surface configuration fields `State::resize` writes. -/
structure SurfaceConfiguration where
  width : ℕ
  height : ℕ
  deriving DecidableEq

/-- The part of main.rs `State` that `State::resize` reads or writes: the
stored window size, the surface configuration, and the log of
`surface.configure` calls (one entry appended per call, recording the
configuration passed). -/
structure State where
  size : ℕ × ℕ
  config : SurfaceConfiguration
  configured : List SurfaceConfiguration
  deriving DecidableEq

/-- main.rs lines 405-412, `State::resize`: only when
`new_size.width > 0 && new_size.height > 0` does it store the new size, write
`config.width` / `config.height`, and call `surface.configure`; otherwise it
does nothing. -/
def State.resize (s : State) (w h : ℕ) : State :=
  if 0 < w ∧ 0 < h then
    let cfg := { s.config with width := w, height := h }
    { size := (w, h), config := cfg, configured := s.configured ++ [cfg] }
  else s

/-- Modelled from the spec: the pitch-clamp constant `SAFE_FRAC_PI_2` is
referenced at camera.rs lines 161-164 but defined nowhere in the source (the
file imports `std::f32::consts::FRAC_PI_2` for it); the spec requires "a safe
range strictly inside ±90°", i.e. a bound positive and strictly below π/2. -/
noncomputable def SAFE_FRAC_PI_2 : ℝ :=
  Real.pi / 2 - 1 / 10000

/-- A controller with every flag released and every accumulator zero, used as
the concrete starting state of several scenarios. -/
def defaultController : CameraController ℚ :=
  { move_left := false, move_right := false, move_forward := false,
    move_backward := false, move_up := false, move_down := false,
    move_speed := 1, rotate_left := false, rotate_right := false,
    rotate_up := false, rotate_down := false, rotate_speed := 1,
    scroll := 0, sensitivity := 1, speed := 1,
    rotate_horizontal := 0, rotate_vertical := 0 }

/-- The material name used by the concrete OBJ example. -/
def sampleName : String := "cube"

/-- A decoder error message used by concrete scenarios. -/
def decodeFailure : String := "decode failure"

/-- An opener error message used by concrete scenarios. -/
def openFailure : String := "open failure"

/-- Applying the correction matrix to any homogeneous vector keeps X, Y and W
and sends Z to `z/2 + w/2`. -/
theorem mulVec4_opengl [Field K] (v : Vec4 K) :
    mulVec4 OPENGL_TO_WGPU_MATRIX v = ⟨v.x, v.y, v.z / 2 + v.w / 2, v.w⟩ := by
  obtain ⟨a, b, c, d⟩ := v
  simp [mulVec4, vadd4, vscale4, OPENGL_TO_WGPU_MATRIX]
  ring_nf

/-- C1: the claim says a key-down immediately followed by a key-up for the
same movement key restores the controller's flag state.  Evaluating the code
at the failing input — key `D`, all flags initially released — shows
`process_keyup` (camera.rs line 99) sets `move_right` to `true`, so the pair
leaves the flag set instead of restoring it. -/
theorem keydown_keyup_d_leaves_flag_set :
    (process_keyup (process_keydown defaultController VirtualKeyCode.D)
      VirtualKeyCode.D).move_right = true ∧
    defaultController.move_right = false :=
  ⟨rfl, rfl⟩

/-- C2 counterexample: calling `process_mouse 10 5` twice with no tick in
between leaves the accumulated horizontal delta at 10, not at the sum 20 the
claim demands — the handler assigns rather than accumulates. -/
theorem mouse_move_twice_is_not_sum :
    (process_mouse (process_mouse defaultController 10 5) 10 5).rotate_horizontal ≠ 20 := by
  decide

/-- C2 amended: `process_mouse` replaces the stored deltas with the latest
call's values (so two calls of `(10, 5)` leave the horizontal delta at 10),
and one `update_camera` tick unconditionally resets both deltas to 0. -/
theorem mouse_move_replaces_and_tick_resets [LinearOrderedField K]
    (sinK cosK sqrtK : K → K) (safe : K) (c : CameraController K)
    (cam : CameraFly K) (dt dx dy dx2 dy2 : K) :
    (process_mouse (process_mouse c dx dy) dx2 dy2).rotate_horizontal = dx2 ∧
    (process_mouse (process_mouse c dx dy) dx2 dy2).rotate_vertical = dy2 ∧
    (update_camera sinK cosK sqrtK safe
      (process_mouse (process_mouse c dx dy) dx2 dy2) cam dt).1.rotate_horizontal = 0 ∧
    (update_camera sinK cosK sqrtK safe
      (process_mouse (process_mouse c dx dy) dx2 dy2) cam dt).1.rotate_vertical = 0 :=
  ⟨rfl, rfl, rfl, rfl⟩

/-- C3 counterexample: the claim says a zero height is guarded by an error or
by clamping the height to at least 1.  `Projection::resize` returns a plain
`Projection` (no error channel), and resizing with height 0 does not agree
with resizing with height 1, so no clamp to a minimum of 1 happens either:
the zero flows straight into the division. -/
theorem resize_zero_height_unclamped :
    (Projection.resize (⟨4 / 3, 1, 1 / 10, 100⟩ : Projection ℚ) 800 0).aspect ≠
    (Projection.resize (⟨4 / 3, 1, 1 / 10, 100⟩ : Projection ℚ) 800 1).aspect := by
  norm_num [Projection.resize]

/-- C3 amended: `Projection::resize` and `Projection::new` compute
`aspect = width / height` on the given height unguarded — no error is
signalled and no clamping is applied, so a zero height reaches the division
as-is. -/
theorem resize_division_unguarded [Field K] (p : Projection K)
    (width height : ℕ) (fovy znear zfar : K) :
    (p.resize width height).aspect = (width : K) / (height : K) ∧
    (Projection.new width height fovy znear zfar : Projection K).aspect =
      (width : K) / (height : K) :=
  ⟨rfl, rfl⟩

/-- C4: `resize(width, height)` sets `aspect` to `width / height` and leaves
`fovy`, `znear` and `zfar` untouched; in particular a projection built for
800×600 has aspect 4/3, and resizing it to 1600×900 gives aspect 16/9 while
perturbing no other field. -/
theorem resize_sets_aspect_only [Field K] (p : Projection K)
    (width height : ℕ) :
    (p.resize width height).aspect = (width : K) / (height : K) ∧
    (p.resize width height).fovy = p.fovy ∧
    (p.resize width height).znear = p.znear ∧
    (p.resize width height).zfar = p.zfar ∧
    (Projection.new 800 600 (1 : ℚ) (1 / 10) 100).aspect = 4 / 3 ∧
    ((Projection.new 800 600 (1 : ℚ) (1 / 10) 100).resize 1600 900).aspect = 16 / 9 ∧
    ((Projection.new 800 600 (1 : ℚ) (1 / 10) 100).resize 1600 900).fovy = 1 ∧
    ((Projection.new 800 600 (1 : ℚ) (1 / 10) 100).resize 1600 900).znear = 1 / 10 ∧
    ((Projection.new 800 600 (1 : ℚ) (1 / 10) 100).resize 1600 900).zfar = 100 :=
  ⟨rfl, rfl, rfl, rfl, by norm_num [Projection.new],
    by norm_num [Projection.new, Projection.resize], rfl, rfl, rfl⟩

/-- C10: a resize notification with a zero width or zero height leaves the
whole `State` — stored size, surface configuration, and the log of
`surface.configure` calls — exactly as it was. -/
theorem state_resize_zero_is_noop (s : State) (w h : ℕ)
    (hz : w = 0 ∨ h = 0) :
    State.resize s w h = s := by
  rcases hz with rfl | rfl
  · simp [State.resize]
  · simp [State.resize]

/-- C10 witness: resizing a concrete state to 0×5 changes nothing. -/
theorem state_resize_zero_is_noop_witness :
    State.resize ⟨(800, 600), ⟨800, 600⟩, []⟩ 0 5 = ⟨(800, 600), ⟨800, 600⟩, []⟩ :=
  state_resize_zero_is_noop ⟨(800, 600), ⟨800, 600⟩, []⟩ 0 5 (Or.inl rfl)

/-- C5: the correction matrix leaves X, Y and W of any homogeneous vector
unchanged and remaps depth affinely, `z ↦ (z + 1) / 2` at `w = 1`, carrying
the depth range `[-1, 1]` onto `[0, 1]` with the endpoints `-1 ↦ 0` and
`1 ↦ 1`; and `build_view_projection_matrix` is exactly the composition
correction × projection × view. -/
theorem opengl_depth_remap_and_composition [LinearOrderedField K]
    (sqrtK tanK d2r : K → K) (c : Camera K) (x y z w : K)
    (h1 : -1 ≤ z) (h2 : z ≤ 1) :
    (mulVec4 OPENGL_TO_WGPU_MATRIX ⟨x, y, z, w⟩).x = x ∧
    (mulVec4 OPENGL_TO_WGPU_MATRIX ⟨x, y, z, w⟩).y = y ∧
    (mulVec4 OPENGL_TO_WGPU_MATRIX ⟨x, y, z, w⟩).w = w ∧
    (mulVec4 OPENGL_TO_WGPU_MATRIX ⟨x, y, z, 1⟩).z = (z + 1) / 2 ∧
    0 ≤ (mulVec4 OPENGL_TO_WGPU_MATRIX ⟨x, y, z, 1⟩).z ∧
    (mulVec4 OPENGL_TO_WGPU_MATRIX ⟨x, y, z, 1⟩).z ≤ 1 ∧
    (mulVec4 OPENGL_TO_WGPU_MATRIX ⟨x, y, -1, 1⟩).z = 0 ∧
    (mulVec4 OPENGL_TO_WGPU_MATRIX ⟨x, y, 1, 1⟩).z = 1 ∧
    Camera.build_view_projection_matrix sqrtK tanK d2r c =
      mulMat4 (mulMat4 OPENGL_TO_WGPU_MATRIX
          (perspective tanK (d2r c.fovy) c.aspect c.znear c.zfar))
        (look_at_rh sqrtK c.eye c.target c.up) := by
  have hz : ∀ t : K, (mulVec4 OPENGL_TO_WGPU_MATRIX ⟨x, y, t, 1⟩).z = (t + 1) / 2 := by
    intro t
    simp only [mulVec4_opengl]
    ring
  refine ⟨?_, ?_, ?_, hz z, ?_, ?_, ?_, ?_, rfl⟩
  · simp only [mulVec4_opengl]
  · simp only [mulVec4_opengl]
  · simp only [mulVec4_opengl]
  · rw [hz z]
    linarith
  · rw [hz z]
    linarith
  · rw [hz (-1)]
    norm_num
  · rw [hz 1]
    norm_num

/-- C5 witness: the depth remap and composition at the concrete input
`(3, 4, 0, 7)` and a concrete camera. -/
theorem opengl_depth_remap_and_composition_witness :
    (mulVec4 OPENGL_TO_WGPU_MATRIX ⟨(3 : ℚ), 4, 0, 7⟩).x = 3 ∧
    (mulVec4 OPENGL_TO_WGPU_MATRIX ⟨(3 : ℚ), 4, 0, 7⟩).y = 4 ∧
    (mulVec4 OPENGL_TO_WGPU_MATRIX ⟨(3 : ℚ), 4, 0, 7⟩).w = 7 ∧
    (mulVec4 OPENGL_TO_WGPU_MATRIX ⟨(3 : ℚ), 4, 0, 1⟩).z = (0 + 1) / 2 ∧
    0 ≤ (mulVec4 OPENGL_TO_WGPU_MATRIX ⟨(3 : ℚ), 4, 0, 1⟩).z ∧
    (mulVec4 OPENGL_TO_WGPU_MATRIX ⟨(3 : ℚ), 4, 0, 1⟩).z ≤ 1 ∧
    (mulVec4 OPENGL_TO_WGPU_MATRIX ⟨(3 : ℚ), 4, -1, 1⟩).z = 0 ∧
    (mulVec4 OPENGL_TO_WGPU_MATRIX ⟨(3 : ℚ), 4, 1, 1⟩).z = 1 ∧
    Camera.build_view_projection_matrix id id id
        (⟨⟨0, 0, 5⟩, ⟨0, 0, 0⟩, ⟨0, 1, 0⟩, 4 / 3, 45, 1 / 10, 100⟩ : Camera ℚ) =
      mulMat4 (mulMat4 OPENGL_TO_WGPU_MATRIX
          (perspective id (id 45) (4 / 3) (1 / 10) 100))
        (look_at_rh id ⟨0, 0, 5⟩ ⟨0, 0, 0⟩ ⟨0, 1, 0⟩) :=
  opengl_depth_remap_and_composition id id id
    ⟨⟨0, 0, 5⟩, ⟨0, 0, 0⟩, ⟨0, 1, 0⟩, 4 / 3, 45, 1 / 10, 100⟩ 3 4 0 7
    (by norm_num) (by norm_num)

/-- C6: a tick with every movement flag released, zero accumulated mouse
deltas and zero scroll, on a camera whose pitch already lies in the clamp
range, returns the camera unchanged — same position, yaw and pitch. -/
theorem tick_idle_preserves_camera [LinearOrderedField K]
    (sinK cosK sqrtK : K → K) (safe : K) (c : CameraController K)
    (cam : CameraFly K) (dt : K)
    (hmf : c.move_forward = false) (hmb : c.move_backward = false)
    (hml : c.move_left = false) (hmr : c.move_right = false)
    (hmu : c.move_up = false) (hmd : c.move_down = false)
    (hrh : c.rotate_horizontal = 0) (hrv : c.rotate_vertical = 0)
    (hsc : c.scroll = 0)
    (hp1 : -safe ≤ cam.pitch) (hp2 : cam.pitch ≤ safe) :
    (update_camera sinK cosK sqrtK safe c cam dt).2 = cam := by
  obtain ⟨⟨px, py, pz⟩, yaw, pitch⟩ := cam
  simp only at hp1 hp2
  simp [update_camera, amount, vadd3, vmul3, hmf, hmb, hml, hmr, hmu, hmd,
    hrh, hrv, hsc]
  split_ifs with ha hb
  · linarith
  · linarith
  · rfl

/-- C6 witness: an idle tick on the concrete camera at position `(1, 2, 3)`,
yaw 5 and pitch 1 with clamp bound 2 returns it unchanged. -/
theorem tick_idle_preserves_camera_witness :
    (update_camera (fun q => q) (fun q => q) (fun q => q) 2 defaultController
      ⟨⟨1, 2, 3⟩, 5, 1⟩ 1).2 = (⟨⟨1, 2, 3⟩, 5, 1⟩ : CameraFly ℚ) :=
  tick_idle_preserves_camera (fun q => q) (fun q => q) (fun q => q) 2
    defaultController ⟨⟨1, 2, 3⟩, 5, 1⟩ 1 rfl rfl rfl rfl rfl rfl rfl rfl rfl
    (by norm_num) (by norm_num)

/-- C8: every vertex of every mesh produced by `Model::load` has its normal
equal to `[0, 0, 0]`, whatever normals the OBJ file carried. -/
theorem model_load_normals_zero (models : List ObjModel) (mesh : Mesh)
    (v : MVertex) (hm : mesh ∈ Model.load models) (hv : v ∈ mesh.vertices) :
    v.norm = [0, 0, 0] := by
  simp only [Model.load, List.mem_map] at hm
  obtain ⟨m, hm2, rfl⟩ := hm
  simp only [mkVertices, List.mem_map] at hv
  obtain ⟨i, hi, rfl⟩ := hv
  rfl

/-- C8 witness: loading a concrete model whose OBJ normals are all 9 still
produces vertices with normal `[0, 0, 0]`. -/
theorem model_load_normals_zero_witness :
    (⟨[1, 2, 3], [0, 1], [0, 0, 0]⟩ : MVertex).norm = [0, 0, 0] :=
  model_load_normals_zero
    [⟨sampleName, ⟨[1, 2, 3, 4, 5, 6], [0, 1, 0, 1], [9, 9, 9, 9, 9, 9],
      [0, 1, 2], some 0⟩⟩]
    ⟨sampleName, [⟨[1, 2, 3], [0, 1], [0, 0, 0]⟩,
      ⟨[4, 5, 6], [0, 1], [0, 0, 0]⟩], [0, 1, 2], 3, 0⟩
    ⟨[1, 2, 3], [0, 1], [0, 0, 0]⟩ (by decide) (by decide)

/-- C9: `Texture::from_image` never produces `Err` at all — on any image not
stored as 8-bit RGBA (for example an 8-bit RGB image) it panics on the
`as_rgba8().unwrap()` — so when `from_bytes` or `load` does return `Err`, the
error necessarily came from the decode/open step. -/
theorem from_image_panics_never_errs (w h : ℕ) (d : List ℕ)
    (img : DynamicImage) (decode : List ℕ → Except String DynamicImage)
    (bytes : List ℕ) (openImage : String → Except String DynamicImage)
    (path : String) (e e2 : String)
    (hne : img.as_rgba8 = none)
    (hb : Texture.from_bytes decode bytes = RustOutcome.err e)
    (hl : Texture.load openImage path = RustOutcome.err e2) :
    Texture.from_image (DynamicImage.ImageRgb8 w h d) = RustOutcome.panicked ∧
    Texture.from_image img = RustOutcome.panicked ∧
    (∀ (img2 : DynamicImage) (e3 : String),
      Texture.from_image img2 ≠ RustOutcome.err e3) ∧
    decode bytes = Except.error e ∧
    openImage path = Except.error e2 := by
  have key : ∀ (img2 : DynamicImage) (e3 : String),
      Texture.from_image img2 ≠ RustOutcome.err e3 := by
    intro img2 e3
    unfold Texture.from_image
    cases himg : img2.as_rgba8 <;> simp
  refine ⟨rfl, ?_, key, ?_, ?_⟩
  · unfold Texture.from_image
    rw [hne]
  · unfold Texture.from_bytes at hb
    cases hd : decode bytes with
    | error e4 =>
        rw [hd] at hb
        simp only [RustOutcome.err.injEq] at hb
        rw [hb]
    | ok img3 =>
        rw [hd] at hb
        exact absurd hb (key img3 e)
  · unfold Texture.load at hl
    cases ho : openImage path with
    | error e4 =>
        rw [ho] at hl
        simp only [RustOutcome.err.injEq] at hl
        rw [hl]
    | ok img3 =>
        rw [ho] at hl
        exact absurd hl (key img3 e2)

/-- C9 witness: a concrete RGB image makes `from_image` panic, and a failing
decoder/opener is the only source of `Err` from `from_bytes` / `load`. -/
theorem from_image_panics_never_errs_witness :
    Texture.from_image (DynamicImage.ImageRgb8 2 2 [1, 2, 3]) =
      RustOutcome.panicked ∧
    Texture.from_image (DynamicImage.ImageRgb8 1 1 [5, 5, 5]) =
      RustOutcome.panicked ∧
    (∀ (img2 : DynamicImage) (e3 : String),
      Texture.from_image img2 ≠ RustOutcome.err e3) ∧
    (fun _ : List ℕ =>
      (Except.error decodeFailure : Except String DynamicImage)) [] =
      Except.error decodeFailure ∧
    (fun _ : String =>
      (Except.error openFailure : Except String DynamicImage)) sampleName =
      Except.error openFailure :=
  from_image_panics_never_errs 2 2 [1, 2, 3] (DynamicImage.ImageRgb8 1 1 [5, 5, 5])
    (fun _ => Except.error decodeFailure) []
    (fun _ => Except.error openFailure) sampleName decodeFailure openFailure
    rfl rfl rfl

/-- C7: after any tick the clamped pitch lies in `[-SAFE_FRAC_PI_2,
SAFE_FRAC_PI_2]`, that bound is strictly inside π/2 (i.e. ±90°), and for
every pitch in the clamped range the Y component of the resulting forward
direction (`scrollward`, the normalized spherical direction) has absolute
value strictly below 1. -/
theorem tick_clamps_pitch_forward_below_pole
    (c : CameraController ℝ) (cam : CameraFly ℝ) (dt p : ℝ)
    (hp : |p| ≤ SAFE_FRAC_PI_2) :
    (-SAFE_FRAC_PI_2 ≤
        (update_camera Real.sin Real.cos Real.sqrt SAFE_FRAC_PI_2 c cam dt).2.pitch ∧
      (update_camera Real.sin Real.cos Real.sqrt SAFE_FRAC_PI_2 c cam dt).2.pitch ≤
        SAFE_FRAC_PI_2) ∧
    SAFE_FRAC_PI_2 < Real.pi / 2 ∧
    |(scrollwardDir Real.sin Real.cos Real.sqrt cam.yaw p).y| < 1 := by
  have hS0 : 0 < SAFE_FRAC_PI_2 := by
    unfold SAFE_FRAC_PI_2
    nlinarith [Real.pi_gt_three]
  have hSlt : SAFE_FRAC_PI_2 < Real.pi / 2 := by
    unfold SAFE_FRAC_PI_2
    norm_num
  have habs := abs_le.mp hp
  have hplt : p < Real.pi / 2 := lt_of_le_of_lt habs.2 hSlt
  have hpgt : -(Real.pi / 2) < p := lt_of_lt_of_le (neg_lt_neg hSlt) habs.1
  refine ⟨?_, hSlt, ?_⟩
  · simp only [update_camera]
    split_ifs with ha hb
    · constructor <;> linarith
    · constructor <;> linarith
    · constructor <;> linarith [not_lt.mp ha, not_lt.mp hb]
  · have hdot :
        dot3 (⟨Real.cos p * Real.cos cam.yaw, Real.sin p,
            Real.cos p * Real.sin cam.yaw⟩ : Vec3 ℝ)
          ⟨Real.cos p * Real.cos cam.yaw, Real.sin p,
            Real.cos p * Real.sin cam.yaw⟩ = 1 := by
      simp only [dot3]
      nlinarith [Real.sin_sq_add_cos_sq p, Real.sin_sq_add_cos_sq cam.yaw]
    have hy : (scrollwardDir Real.sin Real.cos Real.sqrt cam.yaw p).y =
        Real.sin p := by
      simp only [scrollwardDir, normalize3, vmul3]
      rw [hdot, Real.sqrt_one]
      norm_num
    rw [hy]
    have hs1 : Real.sin p < 1 := by
      have hm := Real.strictMonoOn_sin
        (Set.mem_Icc.mpr ⟨le_of_lt hpgt, le_of_lt hplt⟩)
        (Set.mem_Icc.mpr ⟨by linarith [Real.pi_pos], le_refl _⟩) hplt
      rwa [Real.sin_pi_div_two] at hm
    have hs2 : -1 < Real.sin p := by
      have hm := Real.strictMonoOn_sin
        (Set.mem_Icc.mpr ⟨le_refl _, by linarith [Real.pi_pos]⟩)
        (Set.mem_Icc.mpr ⟨le_of_lt hpgt, le_of_lt hplt⟩) hpgt
      rwa [Real.sin_neg, Real.sin_pi_div_two] at hm
    exact abs_lt.mpr ⟨hs2, hs1⟩

/-- C7 witness: the clamp bounds, the strict `< π/2` bound and the forward-Y
bound at the concrete idle controller, origin camera, `dt = 1` and pitch 0. -/
theorem tick_clamps_pitch_forward_below_pole_witness :
    (-SAFE_FRAC_PI_2 ≤
        (update_camera Real.sin Real.cos Real.sqrt SAFE_FRAC_PI_2
          ⟨false, false, false, false, false, false, 1, false, false, false,
            false, 1, 0, 1, 1, 0, 0⟩ ⟨⟨0, 0, 0⟩, 0, 0⟩ 1).2.pitch ∧
      (update_camera Real.sin Real.cos Real.sqrt SAFE_FRAC_PI_2
          ⟨false, false, false, false, false, false, 1, false, false, false,
            false, 1, 0, 1, 1, 0, 0⟩ ⟨⟨0, 0, 0⟩, 0, 0⟩ 1).2.pitch ≤
        SAFE_FRAC_PI_2) ∧
    SAFE_FRAC_PI_2 < Real.pi / 2 ∧
    |(scrollwardDir Real.sin Real.cos Real.sqrt (0 : ℝ) 0).y| < 1 :=
  tick_clamps_pitch_forward_below_pole
    ⟨false, false, false, false, false, false, 1, false, false, false, false,
      1, 0, 1, 1, 0, 0⟩ ⟨⟨0, 0, 0⟩, 0, 0⟩ 1 0
    (by
      have h0 : (0 : ℝ) ≤ SAFE_FRAC_PI_2 := by
        unfold SAFE_FRAC_PI_2
        nlinarith [Real.pi_gt_three]
      simpa using h0)
